import Mathlib

/-!
Verification of the Wormhole auto-download content script
(`src/content_script.js`) against its natural-language specification.

The script is shallowly embedded: the DOM surface is a list of element
records carrying exactly the facts the script queries (tag, classes,
attributes, geometry, style), the session-storage ledger is an
`Option String` cell plus an availability flag (an unavailable medium makes
`sessionStorage` accesses throw, which the script catches), JS numbers
arising from `parseInt` are `Option Int` (`none` = `NaN`), and the
event-loop machine of `startAutoDl` is a step function on an explicit
state record driven by a list of callback events.
-/

namespace Wormhole

/-! ## Configuration constants (content_script.js lines 6-23) -/

def INITIAL_WAIT_MS : Nat := 7000
def POLL_INTERVAL_MS : Nat := 500
def OBSERVER_TIMEOUT_MS : Nat := 30000
def MAX_RELOADS : Nat := 3

/-- `BACKOFF_FACTOR = 1.8` (line 10), embedded as the exact rational 9/5. -/
def BACKOFF_FACTOR : ℚ := 9 / 5

def RELOAD_KEY : String := "wormhole_autodl_reloads"

/-! ## String utilities: substring search, word-boundary regex test,
file-extension regex test, `parseInt`, `trim` -/

/-- `listPre xs ys`: `xs` occurs at the very start of `ys`. -/
def listPre : List Char → List Char → Bool
  | [], _ => true
  | _ :: _, [] => false
  | x :: xs, y :: ys => x = y && listPre xs ys

/-- Substring occurrence, embedding `hay.indexOf(needle) !== -1`. -/
def containsSub (needle : List Char) : List Char → Bool
  | [] => listPre needle []
  | c :: rest => listPre needle (c :: rest) || containsSub needle rest

/-- `hay.indexOf(needle) !== -1` / CSS `[attr*="needle"]` (case sensitive). -/
def strContains (hay needle : String) : Bool :=
  containsSub needle.data hay.data

def lowerList (s : String) : List Char := s.data.map Char.toLower

/-- Case-insensitive substring test, embedding `/needle/i.test(hay)`. -/
def strContainsCI (hay needle : String) : Bool :=
  containsSub (lowerList needle) (lowerList hay)

/-- JS regex word character: `[A-Za-z0-9_]`. -/
def isWordCh (c : Char) : Bool :=
  ('a' ≤ c && c ≤ 'z') || ('A' ≤ c && c ≤ 'Z') || ('0' ≤ c && c ≤ '9') || c = '_'

/-- `\b` holds before the current position given the previous character. -/
def boundaryBefore : Option Char → Bool
  | none => true
  | some c => !isWordCh c

/-- `\b` holds at the start of the remaining characters. -/
def boundaryAt : List Char → Bool
  | [] => true
  | c :: _ => !isWordCh c

/-- One alternative of the regex matches here with `\b` on both sides. -/
def wordAt (alt : List Char) (prev : Option Char) (hay : List Char) : Bool :=
  boundaryBefore prev && listPre alt hay && boundaryAt (hay.drop alt.length)

/-- Search all positions for a `\b alt \b` occurrence. -/
def wordSearch (alt : List Char) : Option Char → List Char → Bool
  | prev, [] => wordAt alt prev []
  | prev, c :: rest => wordAt alt prev (c :: rest) || wordSearch alt (some c) rest

/-- Alternatives of `DOWNLOAD_TEXT_RE` (line 19), already lowercased. -/
def DOWNLOAD_ALTS : List String :=
  ["download", "download file", "download all files", "download files", "get file"]

/-- `DOWNLOAD_TEXT_RE.test(s)`:
`/\b(download|download file|download all files|download files|get file)\b/i`. -/
def downloadTextMatch (s : String) : Bool :=
  let lc := lowerList s
  DOWNLOAD_ALTS.any fun alt => wordSearch alt.data none lc

/-- Extensions of `HREF_FILE_EXT_RE` (line 20). -/
def FILE_EXTS : List String :=
  ["zip", "pdf", "tar", "gz", "exe", "msi", "dmg", "bin", "jpg", "jpeg", "png",
   "mp4", "webm"]

/-- The `(\?|$)` tail of `HREF_FILE_EXT_RE`. -/
def queryOrEnd : List Char → Bool
  | [] => true
  | c :: _ => c = '?'

/-- After a literal dot: some extension followed by `?` or end of string. -/
def extAfterDot (cs : List Char) : Bool :=
  FILE_EXTS.any fun e => listPre e.data cs && queryOrEnd (cs.drop e.data.length)

def hrefExtSearch : List Char → Bool
  | [] => false
  | c :: rest => (c = '.' && extAfterDot rest) || hrefExtSearch rest

/-- `HREF_FILE_EXT_RE.test(href)`:
`/\.(zip|pdf|tar|gz|exe|msi|dmg|bin|jpg|jpeg|png|mp4|webm)(\?|$)/i`. -/
def hrefExtMatch (href : String) : Bool :=
  hrefExtSearch (lowerList href)

def isSpaceCh (c : Char) : Bool :=
  c = ' ' || c = '\t' || c = '\n' || c = '\r' || c = '\x0b' || c = '\x0c'

/-- JS `String.prototype.trim`. -/
def jsTrim (s : String) : String :=
  String.mk (((s.data.dropWhile isSpaceCh).reverse.dropWhile isSpaceCh).reverse)

/-- Digit-run value for `parseInt`; `none` when no leading digit (`NaN`). -/
def digitsVal (cs : List Char) : Option Nat :=
  let ds := cs.takeWhile Char.isDigit
  if ds.isEmpty then none
  else some (ds.foldl (fun a c => a * 10 + (c.toNat - 48)) 0)

/-- JS `parseInt(s, 10)`: skip leading whitespace, optional sign, then the
longest run of decimal digits; `NaN` (here `none`) when there is none. -/
def parseInt10 (s : String) : Option Int :=
  let cs := s.data.dropWhile isSpaceCh
  match cs with
  | '-' :: rest => (digitsVal rest).map fun n => -(n : Int)
  | '+' :: rest => (digitsVal rest).map fun n => (n : Int)
  | _ => (digitsVal cs).map fun n => (n : Int)

/-! ## The DOM surface model

One record per element, carrying exactly the facts `content_script.js`
queries of an element. A `Snapshot` is the document at the moment a
callback runs: elements in document order plus `document.body.innerText`. -/

structure Element where
  tag : String
  classes : List String
  /-- The `href` attribute / property (`none` when absent). -/
  href : Option String
  /-- Presence of the bare `download` attribute. -/
  hasDownloadAttr : Bool
  ariaLabel : Option String
  title : Option String
  textContent : String
  dataTestid : Option String
  dataTest : Option String
  dataDownload : Option String
  inputType : Option String
  role : Option String
  disabled : Bool
  /-- `window.getComputedStyle(el)` throws for this element. -/
  styleThrows : Bool
  displayNone : Bool
  visibilityHidden : Bool
  opacityZero : Bool
  /-- `el.getClientRects()` is non-empty. -/
  hasClientRects : Bool
  width : Nat
  height : Nat
  inViewport : Bool
  /-- `el.closest('[aria-hidden="true"]')` finds an ancestor. -/
  ancestorAriaHidden : Bool
  ariaBusy : Bool
  dataLoading : Bool
deriving DecidableEq

structure Snapshot where
  elements : List Element
  bodyText : String
deriving DecidableEq

/-- A neutral, visible baseline element for building concrete surfaces. -/
def blankEl : Element :=
  { tag := "div", classes := [], href := none, hasDownloadAttr := false,
    ariaLabel := none, title := none, textContent := "", dataTestid := none,
    dataTest := none, dataDownload := none, inputType := none, role := none,
    disabled := false, styleThrows := false, displayNone := false,
    visibilityHidden := false, opacityZero := false, hasClientRects := true,
    width := 10, height := 10, inViewport := true, ancestorAriaHidden := false,
    ariaBusy := false, dataLoading := false }

/-! ## isVisibleAndInteractable (lines 56-78) -/

/-- Lines 56-78. When `getComputedStyle` throws, the `catch (e) { }` makes
the script skip the style-based hidden tests and fall through to the
geometry checks. -/
def isVisibleAndInteractable (el : Element) : Bool :=
  if el.disabled then false
  else if !el.styleThrows &&
      (el.displayNone || el.visibilityHidden || el.opacityZero) then false
  else if !el.hasClientRects then false
  else if el.width = 0 || el.height = 0 then false
  else if !el.inViewport then false
  else if el.ancestorAriaHidden then false
  else true

/-! ## looksLikeDownload (lines 80-91) -/

/-- JS `||` on attribute values: `null` and `""` are falsy. -/
def truthyS : Option String → Bool
  | none => false
  | some s => !(s = "")

/-- JS `a || b` on nullable attribute strings. -/
def jsOrS (a b : Option String) : Option String :=
  if truthyS a then a else b

def looksLikeDownload (el : Element) : Bool :=
  let text := jsTrim (el.textContent ++ " " ++ (el.ariaLabel.getD "") ++ " " ++
    (el.title.getD ""))
  if downloadTextMatch text then true
  else if (match el.href with
           | some h => hrefExtMatch h
           | none => false) then true
  else if el.hasDownloadAttr then true
  else
    let aria := jsOrS (jsOrS el.dataTestid el.dataTest) el.dataDownload
    if truthyS aria then strContainsCI (aria.getD "") "download" else false

/-! ## isBusyUiPresent (lines 37-54) -/

def BUSY_TEXTS : List String :=
  ["Encrypting", "Encrypting...", "Uploading", "Uploading...",
   "Uploaded", "You can close this page now", "downloadError", "downloadError"]

/-- `'[aria-busy="true"], [data-loading="true"], .loading, .spinner'`. -/
def busyMarker (el : Element) : Bool :=
  el.ariaBusy || el.dataLoading || el.classes.contains "loading" ||
    el.classes.contains "spinner"

def isBusyUiPresent (snap : Snapshot) : Bool :=
  BUSY_TEXTS.any (fun t => strContains snap.bodyText t) ||
    snap.elements.any busyMarker

/-! ## findDownloadControl (lines 93-136)

Tier 1 iterates the six specific selectors; each `document.querySelector`
runs inside `try { } catch { }`, so a throwing selector is skipped and the
loop continues.  The tier-1 loop is therefore embedded over a list of
(selector predicate, throws?) pairs. -/

def selChakraButton (el : Element) : Bool :=
  el.tag = "button" && el.classes.contains "chakra-button"

def selChakraLinkButton (el : Element) : Bool :=
  el.tag = "a" && el.classes.contains "chakra-link" &&
    el.classes.contains "chakra-button"

def selHrefContainsDownload (el : Element) : Bool :=
  el.tag = "a" && (match el.href with
                   | some h => strContains h "download"
                   | none => false)

def selADownloadAttr (el : Element) : Bool :=
  el.tag = "a" && el.hasDownloadAttr

def selButtonAriaLabel (el : Element) : Bool :=
  el.tag = "button" && (match el.ariaLabel with
                        | some v => strContains v "Download"
                        | none => false)

def selButtonTitle (el : Element) : Bool :=
  el.tag = "button" && (match el.title with
                        | some v => strContains v "Download"
                        | none => false)

/-- The `specificSelectors` array (lines 95-102), in source order. -/
def specificSelectors : List (Element → Bool) :=
  [selChakraButton, selChakraLinkButton, selHrefContainsDownload,
   selADownloadAttr, selButtonAriaLabel, selButtonTitle]

/-- `document.querySelector(sel)`: first match in document order. -/
def querySelector (p : Element → Bool) (surf : List Element) : Option Element :=
  surf.find? p

/-- The tier-1 loop (lines 103-111) over (selector, throws?) pairs: a
throwing selector is caught and skipped; a first match that fails the
visibility or heuristic checks abandons that selector (no fallthrough to
later matches of the same selector). -/
def tier1Aux : List ((Element → Bool) × Bool) → List Element → Option Element
  | [], _ => none
  | (p, thr) :: rest, surf =>
    if thr then tier1Aux rest surf
    else
      match querySelector p surf with
      | some node =>
        if isVisibleAndInteractable node && looksLikeDownload node then some node
        else tier1Aux rest surf
      | none => tier1Aux rest surf

/-- Tier 1 with no selector throwing. -/
def tier1 (surf : List Element) : Option Element :=
  tier1Aux (specificSelectors.zip (List.replicate 6 false)) surf

/-- `'a, button, input[type="button"], input[type="submit"], [role="button"]'`. -/
def clickableSel (el : Element) : Bool :=
  el.tag = "a" || el.tag = "button" ||
    (el.tag = "input" && (el.inputType = some "button" ||
      el.inputType = some "submit")) ||
    el.role = some "button"

/-- Tier 2 (lines 113-120): scan clickable candidates in document order. -/
def tier2 (surf : List Element) : Option Element :=
  (surf.filter clickableSel).find? fun c =>
    looksLikeDownload c && isVisibleAndInteractable c

/-- Second half of tier 3 (lines 129-133): first visible `a[href]` whose
target matches the file-extension pattern. -/
def tier3FileHref (surf : List Element) : Option Element :=
  (surf.filter fun a => a.tag = "a" && a.href.isSome).find? fun a =>
    (match a.href with
     | some h => hrefExtMatch h
     | none => false) && isVisibleAndInteractable a

/-- Tier 3 (lines 122-133): first `[download]` element if visible, else the
first visible file-extension link. -/
def tier3 (surf : List Element) : Option Element :=
  match querySelector (fun el => el.hasDownloadAttr) surf with
  | some el => if isVisibleAndInteractable el then some el else tier3FileHref surf
  | none => tier3FileHref surf

/-- `findDownloadControl` with a per-tier-1-selector throw profile
(`flags`, padded with `false`). -/
def findDownloadControlT (flags : List Bool) (surf : List Element) :
    Option Element :=
  match tier1Aux (specificSelectors.zip (flags ++ List.replicate 6 false)) surf with
  | some el => some el
  | none =>
    match tier2 surf with
    | some el => some el
    | none => tier3 surf

/-- `findDownloadControl()` (lines 93-136): no selector throws. -/
def findDownloadControl (surf : List Element) : Option Element :=
  findDownloadControlT [] surf

/-! ## The attempt ledger (lines 26-35)

`sessionStorage` is a single cell for `RELOAD_KEY` (`Option String`,
`none` = key absent); `avail = false` means the medium is unavailable and
every `sessionStorage` access throws, which both functions catch.  JS
numbers returned to the caller are `Option Int` with `none` = `NaN`. -/

/-- `sessionStorage.getItem(RELOAD_KEY) || '0'`: `null` and `""` are falsy. -/
def jsOrDefault (v : Option String) (d : String) : String :=
  match v with
  | none => d
  | some s => if s = "" then d else s

/-- `getReloadCount()` (lines 26-28). -/
def getReloadCount (avail : Bool) (store : Option String) : Option Int :=
  if avail then parseInt10 (jsOrDefault store "0") else some 0

/-- JS `v + 1` on a number that may be `NaN`. -/
def jsAdd1 : Option Int → Option Int
  | none => none
  | some n => some (n + 1)

/-- JS `String(v)` on a number that may be `NaN`. -/
def jsToString : Option Int → String
  | none => "NaN"
  | some n => toString n

/-- `incrementReloadCount()` (lines 29-35): returns the new value and the
new storage cell; when the medium is unavailable the catch returns 0 and
nothing is persisted. -/
def incrementReloadCount (avail : Bool) (store : Option String) :
    Option Int × Option String :=
  if avail then
    let v := jsAdd1 (getReloadCount avail store)
    (v, some (jsToString v))
  else (some 0, store)

/-- JS `v >= m` on a number that may be `NaN` (`NaN >= m` is false). -/
def jsGeNat (v : Option Int) (m : Nat) : Bool :=
  match v with
  | none => false
  | some n => (m : Int) ≤ n

/-! ## The busy-backoff delay (lines 216-220)

`Math.max(2000, Math.floor(INITIAL_WAIT_MS * Math.pow(BACKOFF_FACTOR, reloads)))`,
embedded over exact rationals (the script computes it in binary floating
point; the 1.8 literal is embedded as 9/5). -/

/-- The generic delay formula `max(minDelay, floor(initialWait * factor^n))`. -/
def backoffDelay (minDelay initialWait : Nat) (factor : ℚ) (n : Nat) : Nat :=
  max minDelay (Int.toNat ⌊(initialWait : ℚ) * factor ^ n⌋)

/-- The script's `extraWait` (line 219) as a function of the ledger value. -/
def extraWaitFn (n : Nat) : Nat :=
  max 2000 (Int.toNat ⌊(INITIAL_WAIT_MS : ℚ) * BACKOFF_FACTOR ^ n⌋)

/-! ## The retry machine (startAutoDl, lines 158-250)

One state record for a whole browsing session.  Each invocation of
`startAutoDl` (initial load, busy-backoff re-entry, post-reload load) is a
fresh *instance*: a closure with its own `resolved` latch, observer, poll
timer and watchdog.  `gen` numbers the instances that created channels;
`wdPending` holds the generations whose 30-second watchdog has not fired
yet (a page reload destroys them all).  The accounting fields
(`clicks`, `reloadsDone`, `incrementsDone`, `backoffsSched`, `expiries`,
`wdStarted`, `backoffArgs`) count externally visible actions and are not
part of the script's own state.

Events are the event-loop callbacks; each carries the `Snapshot` of the
document at the moment it runs (the script re-queries the live DOM on
every callback) and, for the poll tick, whether the storage medium is
available during that synchronous callback. -/

structure S where
  /-- The `sessionStorage` cell for `RELOAD_KEY`. -/
  store : Option String
  /-- Id of the latest channel-creating `startAutoDl` invocation. -/
  gen : Nat
  /-- The current instance's `resolved` latch (line 173). -/
  resolved : Bool
  /-- The current instance's MutationObserver is attached. -/
  obsActive : Bool
  /-- The current instance's poll interval is running. -/
  timerActive : Bool
  /-- The current instance's `elapsed` accumulator (line 194). -/
  elapsed : Nat
  /-- Generations whose watchdog `setTimeout` (lines 243-249) is pending. -/
  wdPending : List Nat
  /-- A busy-backoff `setTimeout(() => startAutoDl(), extraWait)` is pending. -/
  backoffPending : Bool
  /-- `location.reload()` was called; the context awaits the new page load. -/
  navigating : Bool
  /-- The max-reloads branch (lines 226-229) was taken. -/
  gaveUp : Bool
  clicks : Nat
  reloadsDone : Nat
  incrementsDone : Nat
  backoffsSched : Nat
  /-- Number of watch-window expiries (line 210 condition became true). -/
  expiries : Nat
  wdStarted : Nat
  /-- The ledger values the backoff delays were computed from (line 216). -/
  backoffArgs : List (Option Int)
deriving DecidableEq

inductive Ev where
  /-- The MutationObserver callback (lines 174-183) runs. -/
  | obsFire (snap : Snapshot)
  /-- The poll interval callback (lines 197-240) runs; `avail` is the
  storage medium's availability during this synchronous callback. -/
  | tick (snap : Snapshot) (avail : Bool)
  /-- The watchdog (lines 243-249) of generation `g` fires. -/
  | wdFire (g : Nat)
  /-- The busy-backoff `setTimeout` fires and re-invokes `startAutoDl`. -/
  | backoffGo (snap : Snapshot) (attachOk : Bool)
  /-- After `location.reload()`, the new page loads and the content script
  invokes `startAutoDl` again. -/
  | pageLoad (snap : Snapshot) (attachOk : Bool)
deriving DecidableEq

/-- The fresh-session state: key absent, nothing running. -/
def initS (store : Option String) : S :=
  { store := store, gen := 0, resolved := false, obsActive := false,
    timerActive := false, elapsed := 0, wdPending := [], backoffPending := false,
    navigating := false, gaveUp := false, clicks := 0, reloadsDone := 0,
    incrementsDone := 0, backoffsSched := 0, expiries := 0, wdStarted := 0,
    backoffArgs := [] }

/-- One `startAutoDl()` invocation (lines 158-250 up to the callbacks):
immediate `findDownloadControl` check (lines 162-166; a hit clicks and
creates no channels), otherwise attach the observer (`attachOk` is whether
`observer.observe` succeeded, lines 187-191), start the poll interval and
start this invocation's watchdog. -/
def enterInstance (snap : Snapshot) (attachOk : Bool) (s : S) : S :=
  match findDownloadControl snap.elements with
  | some _ => { s with clicks := s.clicks + 1 }
  | none =>
    { s with gen := s.gen + 1, resolved := false, obsActive := attachOk,
             timerActive := true, elapsed := 0,
             wdPending := s.wdPending ++ [s.gen + 1],
             wdStarted := s.wdStarted + 1 }

/-- The event-loop step function. Events whose callback no longer exists
(cleared interval, disconnected observer, fired or destroyed timeout,
absent backoff, no pending navigation) leave the state unchanged. -/
def step (s : S) (e : Ev) : S :=
  match e with
  | .obsFire snap =>
    if !s.obsActive then s
    else if s.resolved then s
    else
      match findDownloadControl snap.elements with
      | some _ => { s with resolved := true, obsActive := false,
                           clicks := s.clicks + 1 }
      | none => s
  | .tick snap avail =>
    if !s.timerActive then s
    else if s.resolved then { s with timerActive := false }
    else
      match findDownloadControl snap.elements with
      | some _ => { s with resolved := true, timerActive := false,
                           obsActive := false, clicks := s.clicks + 1 }
      | none =>
        if INITIAL_WAIT_MS ≤ s.elapsed + POLL_INTERVAL_MS then
          if isBusyUiPresent snap then
            { s with elapsed := s.elapsed + POLL_INTERVAL_MS,
                     timerActive := false, obsActive := false,
                     expiries := s.expiries + 1, backoffPending := true,
                     backoffsSched := s.backoffsSched + 1,
                     backoffArgs := s.backoffArgs ++ [getReloadCount avail s.store] }
          else
            if jsGeNat (getReloadCount avail s.store) MAX_RELOADS then
              { s with elapsed := s.elapsed + POLL_INTERVAL_MS,
                       timerActive := false, obsActive := false,
                       expiries := s.expiries + 1, gaveUp := true }
            else
              { s with elapsed := s.elapsed + POLL_INTERVAL_MS,
                       timerActive := false, obsActive := false,
                       expiries := s.expiries + 1,
                       store := (incrementReloadCount avail s.store).2,
                       incrementsDone := s.incrementsDone + 1,
                       navigating := true, reloadsDone := s.reloadsDone + 1 }
        else { s with elapsed := s.elapsed + POLL_INTERVAL_MS }
  | .wdFire g =>
    if g ∈ s.wdPending then
      if g = s.gen && !s.resolved then
        { s with wdPending := s.wdPending.erase g, obsActive := false,
                 timerActive := false }
      else { s with wdPending := s.wdPending.erase g }
    else s
  | .backoffGo snap attachOk =>
    if s.backoffPending then
      enterInstance snap attachOk { s with backoffPending := false }
    else s
  | .pageLoad snap attachOk =>
    if s.navigating then
      enterInstance snap attachOk
        { s with navigating := false, resolved := false, obsActive := false,
                 timerActive := false, elapsed := 0, wdPending := [],
                 backoffPending := false }
    else s

/-- Run a list of event-loop callbacks. -/
def run (s : S) (es : List Ev) : S :=
  es.foldl step s

/-- A session began: fresh storage, then the first `startAutoDl`. -/
def startSession (snap : Snapshot) (attachOk : Bool) : S :=
  enterInstance snap attachOk (initS none)

/-- The snapshot neither contains a qualifying download control nor
indicates busy. -/
def quietSnap (snap : Snapshot) : Bool :=
  (findDownloadControl snap.elements).isNone && !isBusyUiPresent snap

/-- Event whose snapshot is quiet and whose storage medium is available. -/
def quietEv : Ev → Bool
  | .obsFire snap => quietSnap snap
  | .tick snap avail => quietSnap snap && avail
  | .wdFire _ => true
  | .backoffGo snap _ => quietSnap snap
  | .pageLoad snap _ => quietSnap snap

/-- The canonical storage contents after `k` persisted increments. -/
def canonStore (k : Nat) : Option String :=
  if k = 0 then none else some (toString (k : Int))

/-! ## Concrete surfaces and states used by witnesses and counterexamples -/

/-- An empty page: no control, not busy. -/
def snapEmpty : Snapshot := ⟨[], ""⟩

/-- A busy page: no control, body text contains `"Uploading"`. -/
def snapBusy : Snapshot := ⟨[], "Uploading"⟩

/-- A visible Chakra button whose text is `"Download"` (a tier-1 hit). -/
def ctlBtn : Element :=
  { blankEl with tag := "button", classes := ["chakra-button"],
                 textContent := "Download" }

/-- A page showing a qualifying download control. -/
def snapCtl : Snapshot := ⟨[ctlBtn], "Download"⟩

/-- A `display:none` Chakra button: first document-order match of the first
specific selector, failing the visibility check. -/
def e1C : Element :=
  { blankEl with tag := "button", classes := ["chakra-button"],
                 textContent := "Open", displayNone := true }

/-- A visible `role="button"` div with a test id containing `download`:
matches no specific selector but qualifies in tier 2. -/
def e3C : Element :=
  { blankEl with tag := "div", role := some "button",
                 dataTestid := some "download-thing", textContent := "save it" }

/-- An element with `styleThrows` that is style-hidden but geometrically
visible. -/
def el9 : Element := { blankEl with styleThrows := true, displayNone := true }

/-- `el` matches some specific selector and passes the visibility,
interactability and download-heuristic checks (the claim's notion of a
tier-1 candidate). -/
def isTier1Candidate (el : Element) : Bool :=
  specificSelectors.any (fun p => p el) && isVisibleAndInteractable el &&
    looksLikeDownload el

/-! ## Helper lemmas -/

/-- Reading back the canonical store returns the count (only the values
0..MAX_RELOADS are ever persisted by the script). -/
lemma readCanon (k : Nat) (hk : k ≤ MAX_RELOADS) :
    getReloadCount true (canonStore k) = some (k : Int) := by
  simp only [MAX_RELOADS] at hk
  interval_cases k <;> decide

/-- Incrementing the canonical store below the ceiling persists the
successor. -/
lemma incCanon (k : Nat) (hk : k < MAX_RELOADS) :
    incrementReloadCount true (canonStore k) =
      (some ((k : Int) + 1), canonStore (k + 1)) := by
  simp only [MAX_RELOADS] at hk
  interval_cases k <;> decide

/-- The tier-1 loop with throwing selectors behaves exactly as the loop
over the non-throwing selectors alone. -/
lemma tier1Aux_filter (l : List ((Element → Bool) × Bool)) (surf : List Element) :
    tier1Aux l surf = tier1Aux (l.filter fun pr => !pr.2) surf := by
  induction l with
  | nil => rfl
  | cons hd tl ih =>
    obtain ⟨p, thr⟩ := hd
    cases thr with
    | true => simpa [tier1Aux, List.filter_cons] using ih
    | false =>
      simp only [tier1Aux, List.filter_cons]
      cases hq : querySelector p surf with
      | none => simpa [tier1Aux, hq] using ih
      | some node =>
        by_cases hv : (isVisibleAndInteractable node && looksLikeDownload node) = true
        · simp [tier1Aux, hq, hv]
        · simp only [Bool.not_eq_true] at hv
          simpa [tier1Aux, hq, hv] using ih

/-! ## C3 — determinism and tier-1 preference of the locator -/

/-- C3 as stated is false on the code: the surface `[e1C, e3C, e2C-style
ctlBtn]` contains a tier-1 candidate (`ctlBtn` matches
`button.chakra-button` and passes all checks), yet `findDownloadControl`
returns `e3C`, which matches no specific selector (a tier-2 hit), because
`document.querySelector('button.chakra-button')` only inspects the first
document-order match (`e1C`, hidden) and abandons the selector. -/
theorem tier1_preference_counterexample :
    ([e1C, e3C, ctlBtn].any isTier1Candidate = true) ∧
    findDownloadControl [e1C, e3C, ctlBtn] = some e3C ∧
    specificSelectors.any (fun p => p e3C) = false ∧
    isTier1Candidate ctlBtn = true := by decide

/-- C3 amended: `locate()` is deterministic (it is a pure function of the
surface), and whenever the tier-1 loop itself succeeds — i.e. the *first
document-order match* of some specific selector passes the visibility,
interactability and download-heuristic checks — `findDownloadControl`
returns that tier-1 result, ignoring tiers 2 and 3. -/
theorem locate_deterministic_tier1_first (surf : List Element) (c : Element)
    (h : tier1 surf = some c) :
    findDownloadControl surf = some c ∧
      findDownloadControl surf = findDownloadControl surf := by
  refine ⟨?_, rfl⟩
  unfold findDownloadControl findDownloadControlT
  unfold tier1 at h
  simp only [List.nil_append]
  rw [h]

/-- Witness: on `[ctlBtn, e3C]` the first specific selector's first match
passes all checks, and the locator returns it even though `e3C` would
qualify in tier 2. -/
theorem locate_deterministic_tier1_first_witness :
    tier1 [ctlBtn, e3C] = some ctlBtn ∧
      (findDownloadControl [ctlBtn, e3C] = some ctlBtn ∧
        findDownloadControl [ctlBtn, e3C] = findDownloadControl [ctlBtn, e3C]) :=
  ⟨by decide, locate_deterministic_tier1_first [ctlBtn, e3C] ctlBtn (by decide)⟩

/-! ## C10 — a throwing tier-1 selector is skipped -/

/-- C10: the per-selector `try/catch` (lines 104-110) makes a throwing
specific selector behave exactly as if it were absent: the loop continues
with the remaining specific selectors and then the lower tiers, and the
locator is total (it returns `Option`, never propagating the exception). -/
theorem selector_throw_skipped (flags : List Bool) (surf : List Element) :
    findDownloadControlT flags surf =
      match tier1Aux ((specificSelectors.zip (flags ++ List.replicate 6 false)).filter
          (fun pr => !pr.2)) surf with
      | some el => some el
      | none =>
        match tier2 surf with
        | some el => some el
        | none => tier3 surf := by
  unfold findDownloadControlT
  rw [tier1Aux_filter]

/-! ## C9 — throwing style computation inside the visibility check -/

/-- C9 as stated is false on the code: for `el9` the style query throws
and the element is style-hidden (`display:none`), yet
`isVisibleAndInteractable` returns `true` — the `catch (e) { }` (line 63)
ignores the failure and continues with the geometry checks instead of
treating the element as not visible. -/
theorem style_throw_counterexample :
    el9.styleThrows = true ∧ el9.displayNone = true ∧
      isVisibleAndInteractable el9 = true := by decide

/-- C9 amended: when the style-computation query throws, the failure is
caught at the point of use and never propagated (the check is a total
boolean function), but rather than returning `false` the check skips the
style-based hidden tests entirely: the result equals the check on the same
element with no style information, decided by the geometry and aria checks
alone. -/
theorem style_throw_skips_style_checks (el : Element) (h : el.styleThrows = true) :
    isVisibleAndInteractable el =
      isVisibleAndInteractable
        { el with styleThrows := false, displayNone := false,
                  visibilityHidden := false, opacityZero := false } := by
  simp [isVisibleAndInteractable, h]

theorem style_throw_skips_style_checks_witness :
    el9.styleThrows = true ∧
      isVisibleAndInteractable el9 =
        isVisibleAndInteractable
          { el9 with styleThrows := false, displayNone := false,
                     visibilityHidden := false, opacityZero := false } :=
  ⟨by decide, style_throw_skips_style_checks el9 (by decide)⟩

/-! ## C8 — ledger degradation -/

/-- C8 as stated is false on the code: the stored value `"abc"` is
unreadable as a non-negative integer, yet `getReloadCount` returns
`parseInt('abc', 10) = NaN` (embedded `none`), not 0 —
`parseInt` does not throw, so the `catch` never fires. -/
theorem ledger_nan_counterexample :
    getReloadCount true (some "abc") = none ∧
      getReloadCount true (some "abc") ≠ some 0 := by decide

/-- C8 amended: with the medium unavailable both operations degrade
(read → 0, increment → 0 without persisting); an absent or empty stored
value reads as 0; but a stored value with no parseable leading decimal
digits reads as `NaN` (not 0), and a parseable negative value is returned
as-is. -/
theorem ledger_degrade (st : Option String) :
    getReloadCount false st = some 0 ∧
    incrementReloadCount false st = (some 0, st) ∧
    getReloadCount true none = some 0 ∧
    getReloadCount true (some "") = some 0 ∧
    getReloadCount true (some "abc") = none ∧
    getReloadCount true (some "-2") = some (-2) := by
  refine ⟨by simp [getReloadCount], by simp [incrementReloadCount],
    by decide, by decide, by decide, by decide⟩

/-! ## C6 — the busy-backoff delay -/

/-- C6: the busy-backoff delay is
`max(minDelay, floor(initialWait * factor^n))`; for a factor ≥ 1 it is
never below the minimum delay and is non-decreasing in the ledger value
`n`; the script's `extraWait` (line 219) is this formula at
`minDelay = 2000`, `initialWait = INITIAL_WAIT_MS`,
`factor = BACKOFF_FACTOR`; and the busy branch of the tick computes it
from the *current*, un-incremented ledger value: the step appends
`getReloadCount avail store` to `backoffArgs` and leaves the store and the
increment count unchanged. -/
theorem backoff_delay_spec (minD initW : Nat) (f : ℚ) (n : Nat) (s : S)
    (snap : Snapshot) (avail : Bool) (hf : 1 ≤ f)
    (ht : s.timerActive = true) (hres : s.resolved = false)
    (hfind : findDownloadControl snap.elements = none)
    (hbusy : isBusyUiPresent snap = true)
    (hexp : INITIAL_WAIT_MS ≤ s.elapsed + POLL_INTERVAL_MS) :
    minD ≤ backoffDelay minD initW f n ∧
    backoffDelay minD initW f n ≤ backoffDelay minD initW f (n + 1) ∧
    extraWaitFn n = backoffDelay 2000 INITIAL_WAIT_MS BACKOFF_FACTOR n ∧
    (step s (Ev.tick snap avail)).backoffArgs =
      s.backoffArgs ++ [getReloadCount avail s.store] ∧
    (step s (Ev.tick snap avail)).store = s.store ∧
    (step s (Ev.tick snap avail)).incrementsDone = s.incrementsDone := by
  refine ⟨le_max_left _ _, ?_, rfl, ?_, ?_, ?_⟩
  · have hpow : f ^ n ≤ f ^ (n + 1) := pow_le_pow_right₀ hf (Nat.le_succ n)
    have hmul : (initW : ℚ) * f ^ n ≤ (initW : ℚ) * f ^ (n + 1) :=
      mul_le_mul_of_nonneg_left hpow (by positivity)
    have hfl : ⌊(initW : ℚ) * f ^ n⌋ ≤ ⌊(initW : ℚ) * f ^ (n + 1)⌋ :=
      Int.floor_le_floor hmul
    have htn : (⌊(initW : ℚ) * f ^ n⌋).toNat ≤ (⌊(initW : ℚ) * f ^ (n + 1)⌋).toNat := by
      omega
    exact max_le_max (le_refl minD) htn
  all_goals simp [step, ht, hres, hfind, hbusy, hexp]

/-- Witness for C6 at the state reached after 13 busy ticks of a fresh
session (mid-watch, about to expire), with factor 9/5 and ledger value 2. -/
theorem backoff_delay_spec_witness :
    2000 ≤ backoffDelay 2000 7000 (9 / 5 : ℚ) 2 ∧
    backoffDelay 2000 7000 (9 / 5 : ℚ) 2 ≤ backoffDelay 2000 7000 (9 / 5 : ℚ) 3 ∧
    extraWaitFn 2 = backoffDelay 2000 INITIAL_WAIT_MS BACKOFF_FACTOR 2 ∧
    (step (run (startSession snapBusy true)
        (List.replicate 13 (Ev.tick snapBusy true))) (Ev.tick snapBusy true)).backoffArgs =
      (run (startSession snapBusy true)
        (List.replicate 13 (Ev.tick snapBusy true))).backoffArgs ++
        [getReloadCount true (run (startSession snapBusy true)
          (List.replicate 13 (Ev.tick snapBusy true))).store] ∧
    (step (run (startSession snapBusy true)
        (List.replicate 13 (Ev.tick snapBusy true))) (Ev.tick snapBusy true)).store =
      (run (startSession snapBusy true)
        (List.replicate 13 (Ev.tick snapBusy true))).store ∧
    (step (run (startSession snapBusy true)
        (List.replicate 13 (Ev.tick snapBusy true))) (Ev.tick snapBusy true)).incrementsDone =
      (run (startSession snapBusy true)
        (List.replicate 13 (Ev.tick snapBusy true))).incrementsDone :=
  backoff_delay_spec 2000 7000 (9 / 5 : ℚ) 2
    (run (startSession snapBusy true) (List.replicate 13 (Ev.tick snapBusy true)))
    snapBusy true (by norm_num) (by decide) (by decide) (by decide) (by decide)
    (by decide)

/-! ## C4 — the resolution latch -/

lemma quietSnap_spec (snap : Snapshot) (h : quietSnap snap = true) :
    findDownloadControl snap.elements = none ∧ isBusyUiPresent snap = false := by
  simp only [quietSnap, Bool.and_eq_true, Bool.not_eq_true',
    Option.isNone_iff_eq_none] at h
  exact h

lemma step_resolved_frozen (s : S) (e : Ev)
    (hr : s.resolved = true) (hn : s.navigating = false)
    (hb : s.backoffPending = false) :
    (step s e).resolved = true ∧ (step s e).navigating = false ∧
    (step s e).backoffPending = false ∧ (step s e).clicks = s.clicks ∧
    (step s e).reloadsDone = s.reloadsDone ∧
    (step s e).incrementsDone = s.incrementsDone ∧
    (step s e).backoffsSched = s.backoffsSched ∧ (step s e).store = s.store := by
  cases e with
  | obsFire snap => by_cases h : s.obsActive = true <;> simp [step, h, hr, hn, hb]
  | tick snap avail => by_cases h : s.timerActive = true <;> simp [step, h, hr, hn, hb]
  | wdFire g => by_cases h : g ∈ s.wdPending <;> simp [step, h, hr, hn, hb]
  | backoffGo snap aOk => simp [step, hb, hr, hn]
  | pageLoad snap aOk => simp [step, hn, hr, hb]

lemma run_resolved_frozen (es : List Ev) (s : S)
    (hr : s.resolved = true) (hn : s.navigating = false)
    (hb : s.backoffPending = false) :
    (run s es).resolved = true ∧ (run s es).navigating = false ∧
    (run s es).backoffPending = false ∧ (run s es).clicks = s.clicks ∧
    (run s es).reloadsDone = s.reloadsDone ∧
    (run s es).incrementsDone = s.incrementsDone ∧
    (run s es).backoffsSched = s.backoffsSched ∧ (run s es).store = s.store := by
  induction es generalizing s with
  | nil => exact ⟨hr, hn, hb, rfl, rfl, rfl, rfl, rfl⟩
  | cons e tl ih =>
    obtain ⟨a1, a2, a3, a4, a5, a6, a7, a8⟩ := step_resolved_frozen s e hr hn hb
    obtain ⟨b1, b2, b3, b4, b5, b6, b7, b8⟩ := ih (step s e) a1 a2 a3
    exact ⟨b1, b2, b3, b4.trans a4, b5.trans a5, b6.trans a6, b7.trans a7,
      b8.trans a8⟩

/-- C4 as stated is false on the code: immediately after the observer
callback sets the latch (and performs the one activation), the poll
interval is still running (`clearInterval` is not called on the observer
path, lines 177-182) and the watchdog `setTimeout` is still pending
(`clearTimeout` is never called, lines 243-249): neither is cancelled at
resolution. -/
theorem resolution_latch_counterexample :
    (step (startSession snapEmpty true) (Ev.obsFire snapCtl)).resolved = true ∧
    (step (startSession snapEmpty true) (Ev.obsFire snapCtl)).clicks = 1 ∧
    (step (startSession snapEmpty true) (Ev.obsFire snapCtl)).timerActive = true ∧
    (step (startSession snapEmpty true) (Ev.obsFire snapCtl)).wdPending = [1] := by
  decide

/-- C4 amended: once the latch is set (a state in which necessarily no
backoff is scheduled and no reload is pending, since every escalation path
checks the latch first), every subsequent event of the instance leaves the
activation count, reload count, increment count, backoff-schedule count
and the persisted ledger unchanged, and the latch stays set: the surviving
timer's next tick and the watchdog's firing are no-ops.  The timer and
watchdog are not eagerly cancelled at resolution (see the counterexample);
their callbacks merely check the latch. -/
theorem resolution_latch_frozen (s : S) (es : List Ev)
    (hr : s.resolved = true) (hn : s.navigating = false)
    (hb : s.backoffPending = false) :
    (run s es).clicks = s.clicks ∧ (run s es).reloadsDone = s.reloadsDone ∧
    (run s es).incrementsDone = s.incrementsDone ∧
    (run s es).backoffsSched = s.backoffsSched ∧
    (run s es).store = s.store ∧ (run s es).resolved = true := by
  obtain ⟨b1, b2, b3, b4, b5, b6, b7, b8⟩ := run_resolved_frozen es s hr hn hb
  exact ⟨b4, b5, b6, b7, b8, b1⟩

/-- Witness: the instance resolved by the observer never reloads, backs
off, increments or clicks again across a later tick and the watchdog
firing. -/
theorem resolution_latch_frozen_witness :
    (run (step (startSession snapEmpty true) (Ev.obsFire snapCtl))
        [Ev.tick snapEmpty true, Ev.wdFire 1]).clicks =
      (step (startSession snapEmpty true) (Ev.obsFire snapCtl)).clicks ∧
    (run (step (startSession snapEmpty true) (Ev.obsFire snapCtl))
        [Ev.tick snapEmpty true, Ev.wdFire 1]).reloadsDone =
      (step (startSession snapEmpty true) (Ev.obsFire snapCtl)).reloadsDone ∧
    (run (step (startSession snapEmpty true) (Ev.obsFire snapCtl))
        [Ev.tick snapEmpty true, Ev.wdFire 1]).incrementsDone =
      (step (startSession snapEmpty true) (Ev.obsFire snapCtl)).incrementsDone ∧
    (run (step (startSession snapEmpty true) (Ev.obsFire snapCtl))
        [Ev.tick snapEmpty true, Ev.wdFire 1]).backoffsSched =
      (step (startSession snapEmpty true) (Ev.obsFire snapCtl)).backoffsSched ∧
    (run (step (startSession snapEmpty true) (Ev.obsFire snapCtl))
        [Ev.tick snapEmpty true, Ev.wdFire 1]).store =
      (step (startSession snapEmpty true) (Ev.obsFire snapCtl)).store ∧
    (run (step (startSession snapEmpty true) (Ev.obsFire snapCtl))
        [Ev.tick snapEmpty true, Ev.wdFire 1]).resolved = true :=
  resolution_latch_frozen (step (startSession snapEmpty true) (Ev.obsFire snapCtl))
    [Ev.tick snapEmpty true, Ev.wdFire 1] (by decide) (by decide) (by decide)

/-! ## C7 — only the reload branch increments the ledger -/

/-- C7: (1) a tick on a busy surface never changes the persisted counter
or the increment count, and at watch-window expiry it takes the backoff
branch; (2) any step that changes the increment count is a reload step:
it also increments the reload count, triggers navigation, and schedules no
backoff. -/
theorem busy_backoff_never_increments :
    (∀ (s : S) (snap : Snapshot) (avail : Bool), isBusyUiPresent snap = true →
      (step s (Ev.tick snap avail)).store = s.store ∧
      (step s (Ev.tick snap avail)).incrementsDone = s.incrementsDone ∧
      (step s (Ev.tick snap avail)).reloadsDone = s.reloadsDone ∧
      (s.timerActive = true → s.resolved = false →
        findDownloadControl snap.elements = none →
        INITIAL_WAIT_MS ≤ s.elapsed + POLL_INTERVAL_MS →
        (step s (Ev.tick snap avail)).backoffPending = true)) ∧
    (∀ (s : S) (e : Ev), (step s e).incrementsDone ≠ s.incrementsDone →
      (step s e).incrementsDone = s.incrementsDone + 1 ∧
      (step s e).reloadsDone = s.reloadsDone + 1 ∧
      (step s e).navigating = true ∧
      (step s e).backoffsSched = s.backoffsSched ∧
      (step s e).backoffPending = s.backoffPending) := by
  constructor
  · intro s snap avail hbusy
    by_cases ht : s.timerActive = true
    · by_cases hres : s.resolved = true
      · simp [step, ht, hres]
      · rw [Bool.not_eq_true] at hres
        cases hfind : findDownloadControl snap.elements with
        | some el => simp [step, ht, hres, hfind]
        | none =>
          by_cases hexp : INITIAL_WAIT_MS ≤ s.elapsed + POLL_INTERVAL_MS
          · simp [step, ht, hres, hfind, hexp, hbusy]
          · simp [step, ht, hres, hfind, hexp]
    · rw [Bool.not_eq_true] at ht
      simp [step, ht]
  · intro s e h
    cases e with
    | obsFire snap =>
      exfalso; apply h
      by_cases ho : s.obsActive = true
      · by_cases hres : s.resolved = true
        · simp [step, ho, hres]
        · rw [Bool.not_eq_true] at hres
          cases hfind : findDownloadControl snap.elements with
          | some el => simp [step, ho, hres, hfind]
          | none => simp [step, ho, hres, hfind]
      · rw [Bool.not_eq_true] at ho
        simp [step, ho]
    | tick snap avail =>
      by_cases ht : s.timerActive = true
      · by_cases hres : s.resolved = true
        · exfalso; apply h; simp [step, ht, hres]
        · rw [Bool.not_eq_true] at hres
          cases hfind : findDownloadControl snap.elements with
          | some el => exfalso; apply h; simp [step, ht, hres, hfind]
          | none =>
            by_cases hexp : INITIAL_WAIT_MS ≤ s.elapsed + POLL_INTERVAL_MS
            · by_cases hbusy : isBusyUiPresent snap = true
              · exfalso; apply h; simp [step, ht, hres, hfind, hexp, hbusy]
              · rw [Bool.not_eq_true] at hbusy
                by_cases hge : jsGeNat (getReloadCount avail s.store) MAX_RELOADS = true
                · exfalso; apply h
                  simp [step, ht, hres, hfind, hexp, hbusy, hge]
                · rw [Bool.not_eq_true] at hge
                  simp [step, ht, hres, hfind, hexp, hbusy, hge]
            · exfalso; apply h; simp [step, ht, hres, hfind, hexp]
      · rw [Bool.not_eq_true] at ht
        exfalso; apply h; simp [step, ht]
    | wdFire g =>
      exfalso; apply h
      by_cases hm : g ∈ s.wdPending
      · by_cases hgg : (g = s.gen && !s.resolved) = true <;> simp [step, hm, hgg]
      · simp [step, hm]
    | backoffGo snap aOk =>
      exfalso; apply h
      by_cases hbp : s.backoffPending = true
      · cases hfind : findDownloadControl snap.elements with
        | some el => simp [step, enterInstance, hbp, hfind]
        | none => simp [step, enterInstance, hbp, hfind]
      · rw [Bool.not_eq_true] at hbp
        simp [step, hbp]
    | pageLoad snap aOk =>
      exfalso; apply h
      by_cases hnav : s.navigating = true
      · cases hfind : findDownloadControl snap.elements with
        | some el => simp [step, enterInstance, hnav, hfind]
        | none => simp [step, enterInstance, hnav, hfind]
      · rw [Bool.not_eq_true] at hnav
        simp [step, hnav]

/-- Witness for C7: part 1 at the about-to-expire busy state (backoff
taken, ledger untouched); part 2 at the about-to-expire quiet state (the
increment that does happen is a reload step). -/
theorem busy_backoff_never_increments_witness :
    ((step (run (startSession snapBusy true)
        (List.replicate 13 (Ev.tick snapBusy true))) (Ev.tick snapBusy true)).store =
      (run (startSession snapBusy true)
        (List.replicate 13 (Ev.tick snapBusy true))).store ∧
      (step (run (startSession snapBusy true)
        (List.replicate 13 (Ev.tick snapBusy true))) (Ev.tick snapBusy true)).backoffPending = true) ∧
    ((step (run (startSession snapEmpty true)
        (List.replicate 13 (Ev.tick snapEmpty true))) (Ev.tick snapEmpty true)).incrementsDone =
      (run (startSession snapEmpty true)
        (List.replicate 13 (Ev.tick snapEmpty true))).incrementsDone + 1 ∧
      (step (run (startSession snapEmpty true)
        (List.replicate 13 (Ev.tick snapEmpty true))) (Ev.tick snapEmpty true)).navigating = true) := by
  constructor
  · have h := busy_backoff_never_increments.1
      (run (startSession snapBusy true) (List.replicate 13 (Ev.tick snapBusy true)))
      snapBusy true (by decide)
    exact ⟨h.1, h.2.2.2 (by decide) (by decide) (by decide) (by decide)⟩
  · have h := busy_backoff_never_increments.2
      (run (startSession snapEmpty true) (List.replicate 13 (Ev.tick snapEmpty true)))
      (Ev.tick snapEmpty true) (by decide)
    exact ⟨h.1, h.2.2.1⟩

/-! ## C2 — ledger monotonicity and bound -/

/-- The persisted counter read back as a natural number (`NaN` and negative
values, unreachable in program-only runs, read as 0). -/
def counterNat (store : Option String) : Nat :=
  match getReloadCount true store with
  | some v => v.toNat
  | none => 0

lemma counterNat_canon (k : Nat) (hk : k ≤ MAX_RELOADS) :
    counterNat (canonStore k) = k := by
  simp only [MAX_RELOADS] at hk
  interval_cases k <;> decide

/-- The only step that changes the storage cell is a tick taking the
reload branch, whose guard saw a ledger value below the ceiling. -/
lemma step_store_change (s : S) (e : Ev) (h : (step s e).store ≠ s.store) :
    ∃ snap avail, e = Ev.tick snap avail ∧
      jsGeNat (getReloadCount avail s.store) MAX_RELOADS = false ∧
      (step s e).store = (incrementReloadCount avail s.store).2 := by
  cases e with
  | obsFire snap =>
    exfalso; apply h
    by_cases ho : s.obsActive = true
    · by_cases hres : s.resolved = true
      · simp [step, ho, hres]
      · rw [Bool.not_eq_true] at hres
        cases hfind : findDownloadControl snap.elements with
        | some el => simp [step, ho, hres, hfind]
        | none => simp [step, ho, hres, hfind]
    · rw [Bool.not_eq_true] at ho
      simp [step, ho]
  | tick snap avail =>
    by_cases ht : s.timerActive = true
    · by_cases hres : s.resolved = true
      · exact absurd (by simp [step, ht, hres]) h
      · rw [Bool.not_eq_true] at hres
        cases hfind : findDownloadControl snap.elements with
        | some el => exact absurd (by simp [step, ht, hres, hfind]) h
        | none =>
          by_cases hexp : INITIAL_WAIT_MS ≤ s.elapsed + POLL_INTERVAL_MS
          · by_cases hbusy : isBusyUiPresent snap = true
            · exact absurd (by simp [step, ht, hres, hfind, hexp, hbusy]) h
            · rw [Bool.not_eq_true] at hbusy
              by_cases hge : jsGeNat (getReloadCount avail s.store) MAX_RELOADS = true
              · exact absurd (by simp [step, ht, hres, hfind, hexp, hbusy, hge]) h
              · rw [Bool.not_eq_true] at hge
                exact ⟨snap, avail, rfl, hge,
                  by simp [step, ht, hres, hfind, hexp, hbusy, hge]⟩
          · exact absurd (by simp [step, ht, hres, hfind, hexp]) h
    · rw [Bool.not_eq_true] at ht
      exact absurd (by simp [step, ht]) h
  | wdFire g =>
    exfalso; apply h
    by_cases hm : g ∈ s.wdPending
    · by_cases hgg : (g = s.gen && !s.resolved) = true <;> simp [step, hm, hgg]
    · simp [step, hm]
  | backoffGo snap aOk =>
    exfalso; apply h
    by_cases hbp : s.backoffPending = true
    · cases hfind : findDownloadControl snap.elements with
      | some el => simp [step, enterInstance, hbp, hfind]
      | none => simp [step, enterInstance, hbp, hfind]
    · rw [Bool.not_eq_true] at hbp
      simp [step, hbp]
  | pageLoad snap aOk =>
    exfalso; apply h
    by_cases hnav : s.navigating = true
    · cases hfind : findDownloadControl snap.elements with
      | some el => simp [step, enterInstance, hnav, hfind]
      | none => simp [step, enterInstance, hnav, hfind]
    · rw [Bool.not_eq_true] at hnav
      simp [step, hnav]

/-- Program-only storage contents stay canonical, bounded by the ceiling,
and never decrease across a step. -/
lemma ledger_step (s : S) (e : Ev) (k : Nat) (hk : k ≤ MAX_RELOADS)
    (hs : s.store = canonStore k) :
    ∃ k2, k2 ≤ MAX_RELOADS ∧ (step s e).store = canonStore k2 ∧ k ≤ k2 := by
  by_cases hch : (step s e).store = s.store
  · exact ⟨k, hk, hch.trans hs, le_refl k⟩
  · obtain ⟨snap, avail, _, hge, hst⟩ := step_store_change s e hch
    cases avail with
    | false =>
      exfalso; apply hch
      rw [hst]
      simp [incrementReloadCount]
    | true =>
      have hrd : getReloadCount true s.store = some ((k : Nat) : Int) := by
        rw [hs]; exact readCanon k hk
      rw [hrd] at hge
      have hklt : k < MAX_RELOADS := by
        simp only [jsGeNat, decide_eq_false_iff_not, not_le] at hge
        simp only [MAX_RELOADS] at hge ⊢
        omega
      refine ⟨k + 1, hklt, ?_, Nat.le_succ k⟩
      rw [hst, hs, incCanon k hklt]

lemma ledger_run (es : List Ev) (s : S) (k : Nat) (hk : k ≤ MAX_RELOADS)
    (hs : s.store = canonStore k) :
    ∃ k2, k2 ≤ MAX_RELOADS ∧ (run s es).store = canonStore k2 ∧ k ≤ k2 := by
  induction es generalizing s k with
  | nil => exact ⟨k, hk, hs, le_refl k⟩
  | cons e tl ih =>
    obtain ⟨k1, hk1, hs1, hkk1⟩ := ledger_step s e k hk hs
    obtain ⟨k2, hk2, hs2, hkk2⟩ := ih (step s e) k1 hk1 hs1
    exact ⟨k2, hk2, hs2, hkk1.trans hkk2⟩

lemma startSession_store (snap : Snapshot) (attachOk : Bool) :
    (startSession snap attachOk).store = canonStore 0 := by
  unfold startSession enterInstance initS
  cases hfind : findDownloadControl snap.elements <;> simp [hfind, canonStore]

/-- C2: along any session driven by the program itself (fresh session,
arbitrary snapshots and per-callback medium availability), the persisted
attempt counter never decreases at any step and, after any step —
including every increment performed by the machine, which only happens
when the read value is strictly below the ceiling — never exceeds
`MAX_RELOADS`. -/
theorem ledger_monotone_bounded (snap : Snapshot) (attachOk : Bool)
    (es : List Ev) (e : Ev) :
    counterNat (run (startSession snap attachOk) es).store ≤
      counterNat (step (run (startSession snap attachOk) es) e).store ∧
    counterNat (step (run (startSession snap attachOk) es) e).store ≤
      MAX_RELOADS := by
  obtain ⟨k, hk, hs, -⟩ := ledger_run es (startSession snap attachOk) 0
    (by simp [MAX_RELOADS]) (startSession_store snap attachOk)
  obtain ⟨k2, hk2, hs2, hkk⟩ :=
    ledger_step (run (startSession snap attachOk) es) e k hk hs
  rw [hs, hs2, counterNat_canon k hk, counterNat_canon k2 hk2]
  exact ⟨hkk, hk2⟩

/-! ## C1 — quiet runs: one reload and one increment per expiry, then
give up with a frozen ledger -/

/-- Once the stored ledger reads at or above the ceiling, no step changes
the storage cell (an available medium hits the give-up guard; an
unavailable one does not persist). -/
lemma step_store_frozen (s : S) (e : Ev)
    (h : jsGeNat (getReloadCount true s.store) MAX_RELOADS = true) :
    (step s e).store = s.store := by
  by_cases hch : (step s e).store = s.store
  · exact hch
  · obtain ⟨snap, avail, _, hge, hst⟩ := step_store_change s e hch
    cases avail with
    | false =>
      rw [hst]
      simp [incrementReloadCount]
    | true =>
      rw [h] at hge
      exact absurd hge (by decide)

lemma run_store_frozen (es : List Ev) (s : S)
    (h : jsGeNat (getReloadCount true s.store) MAX_RELOADS = true) :
    (run s es).store = s.store := by
  induction es generalizing s with
  | nil => rfl
  | cons e tl ih =>
    have h1 := step_store_frozen s e h
    exact (ih (step s e) (by rw [h1]; exact h)).trans h1

/-- Reachability invariant for quiet runs (no control ever found, never
busy, medium available). -/
def InvC1 (s : S) : Prop :=
  s.store = canonStore s.incrementsDone ∧
  s.incrementsDone = s.reloadsDone ∧
  s.incrementsDone ≤ MAX_RELOADS ∧
  s.resolved = false ∧
  s.backoffPending = false ∧
  s.clicks = 0 ∧
  (s.timerActive = true → s.navigating = false ∧ s.gaveUp = false ∧
    s.elapsed < INITIAL_WAIT_MS) ∧
  (s.gaveUp = false → s.expiries = s.reloadsDone) ∧
  (s.gaveUp = true → s.expiries = s.reloadsDone + 1 ∧
    s.reloadsDone = MAX_RELOADS ∧ s.timerActive = false ∧ s.navigating = false)

lemma invC1_start (snap : Snapshot) (attachOk : Bool)
    (h : quietSnap snap = true) : InvC1 (startSession snap attachOk) := by
  obtain ⟨hfind, -⟩ := quietSnap_spec snap h
  unfold InvC1 startSession enterInstance initS
  simp [hfind, canonStore, INITIAL_WAIT_MS, MAX_RELOADS]

lemma invC1_step (s : S) (e : Ev) (hI : InvC1 s) (hq : quietEv e = true) :
    InvC1 (step s e) := by
  obtain ⟨h1, h2, h3, h4, h5, h6, h7, h8, h9⟩ := hI
  cases e with
  | obsFire snap =>
    obtain ⟨hfind, hbusy⟩ := quietSnap_spec snap (by simpa [quietEv] using hq)
    have hs : step s (Ev.obsFire snap) = s := by
      by_cases ho : s.obsActive = true
      · simp [step, ho, h4, hfind]
      · rw [Bool.not_eq_true] at ho
        simp [step, ho]
    rw [hs]
    exact ⟨h1, h2, h3, h4, h5, h6, h7, h8, h9⟩
  | tick snap avail =>
    have hq2 : quietSnap snap = true ∧ avail = true := by
      simpa [quietEv] using hq
    obtain ⟨hfind, hbusy⟩ := quietSnap_spec snap hq2.1
    obtain ⟨-, havail⟩ := hq2
    subst havail
    by_cases ht : s.timerActive = true
    · obtain ⟨hnav, hgu, hel⟩ := h7 ht
      by_cases hexp : INITIAL_WAIT_MS ≤ s.elapsed + POLL_INTERVAL_MS
      · have hrd : getReloadCount true s.store = some ((s.incrementsDone : Nat) : Int) := by
          rw [h1]; exact readCanon _ h3
        by_cases hge : jsGeNat (getReloadCount true s.store) MAX_RELOADS = true
        · have hmax : s.incrementsDone = MAX_RELOADS := by
            rw [hrd] at hge
            simp only [jsGeNat, decide_eq_true_eq] at hge
            simp only [MAX_RELOADS] at hge h3 ⊢
            omega
          rw [show step s (Ev.tick snap true) =
            { s with elapsed := s.elapsed + POLL_INTERVAL_MS,
                     timerActive := false, obsActive := false,
                     expiries := s.expiries + 1, gaveUp := true } from
            by simp [step, ht, h4, hfind, hexp, hbusy, hge]]
          refine ⟨h1, h2, h3, h4, h5, h6, by simp, by simp, ?_⟩
          intro _
          exact ⟨by rw [h8 hgu], by rw [← h2]; exact hmax, rfl, hnav⟩
        · rw [Bool.not_eq_true] at hge
          have hklt : s.incrementsDone < MAX_RELOADS := by
            rw [hrd] at hge
            simp only [jsGeNat, decide_eq_false_iff_not, not_le] at hge
            simp only [MAX_RELOADS] at hge ⊢
            omega
          rw [show step s (Ev.tick snap true) =
            { s with elapsed := s.elapsed + POLL_INTERVAL_MS,
                     timerActive := false, obsActive := false,
                     expiries := s.expiries + 1,
                     store := (incrementReloadCount true s.store).2,
                     incrementsDone := s.incrementsDone + 1,
                     navigating := true, reloadsDone := s.reloadsDone + 1 } from
            by simp [step, ht, h4, hfind, hexp, hbusy, hge]]
          refine ⟨?_, by rw [h2], hklt, h4, h5, h6, by simp, ?_, ?_⟩
          · rw [h1, incCanon _ hklt]
          · intro _
            rw [h8 hgu]
          · intro hg9
            exact absurd hg9 (by simp [hgu])
      · rw [show step s (Ev.tick snap true) =
          { s with elapsed := s.elapsed + POLL_INTERVAL_MS } from
          by simp [step, ht, h4, hfind, hexp]]
        refine ⟨h1, h2, h3, h4, h5, h6, ?_, h8, ?_⟩
        · intro _
          refine ⟨hnav, hgu, ?_⟩
          simp only [INITIAL_WAIT_MS, POLL_INTERVAL_MS] at hexp ⊢
          omega
        · intro hg9
          exact absurd hg9 (by simp [hgu])
    · rw [Bool.not_eq_true] at ht
      rw [show step s (Ev.tick snap true) = s from by simp [step, ht]]
      exact ⟨h1, h2, h3, h4, h5, h6, h7, h8, h9⟩
  | wdFire g =>
    by_cases hm : g ∈ s.wdPending
    · by_cases hgg : (g = s.gen && !s.resolved) = true
      · rw [show step s (Ev.wdFire g) =
          { s with wdPending := s.wdPending.erase g, obsActive := false,
                   timerActive := false } from by simp [step, hm, hgg]]
        refine ⟨h1, h2, h3, h4, h5, h6, by simp, h8, ?_⟩
        intro hg9
        exact ⟨(h9 hg9).1, (h9 hg9).2.1, rfl, (h9 hg9).2.2.2⟩
      · rw [show step s (Ev.wdFire g) =
          { s with wdPending := s.wdPending.erase g } from by simp [step, hm, hgg]]
        exact ⟨h1, h2, h3, h4, h5, h6, h7, h8, h9⟩
    · rw [show step s (Ev.wdFire g) = s from by simp [step, hm]]
      exact ⟨h1, h2, h3, h4, h5, h6, h7, h8, h9⟩
  | backoffGo snap aOk =>
    rw [show step s (Ev.backoffGo snap aOk) = s from by simp [step, h5]]
    exact ⟨h1, h2, h3, h4, h5, h6, h7, h8, h9⟩
  | pageLoad snap aOk =>
    obtain ⟨hfind, hbusy⟩ := quietSnap_spec snap (by simpa [quietEv] using hq)
    by_cases hnav : s.navigating = true
    · have hgu : s.gaveUp = false := by
        by_cases hg : s.gaveUp = true
        · exact absurd hnav (by simp [(h9 hg).2.2.2])
        · rwa [Bool.not_eq_true] at hg
      rw [show step s (Ev.pageLoad snap aOk) =
        { s with navigating := false, resolved := false, obsActive := aOk,
                 timerActive := true, elapsed := 0, wdPending := [s.gen + 1],
                 backoffPending := false, gen := s.gen + 1,
                 wdStarted := s.wdStarted + 1 } from
        by simp [step, enterInstance, hnav, hfind]]
      refine ⟨h1, h2, h3, rfl, rfl, h6, ?_, ?_, ?_⟩
      · intro _
        exact ⟨rfl, hgu, by simp [INITIAL_WAIT_MS]⟩
      · intro _
        exact h8 hgu
      · intro hg9
        exact absurd hg9 (by simp [hgu])
    · rw [Bool.not_eq_true] at hnav
      rw [show step s (Ev.pageLoad snap aOk) = s from by simp [step, hnav]]
      exact ⟨h1, h2, h3, h4, h5, h6, h7, h8, h9⟩

lemma invC1_run (es : List Ev) (s : S) (hI : InvC1 s)
    (hq : es.all quietEv = true) : InvC1 (run s es) := by
  induction es generalizing s with
  | nil => exact hI
  | cons e tl ih =>
    rw [List.all_cons, Bool.and_eq_true] at hq
    exact ih (step s e) (invC1_step s e hI hq.1) hq.2

/-- C1: in a session whose snapshots never contain a qualifying control
and never indicate busy (medium available), the machine reloads exactly
once per watch-window expiry while the ledger is below the ceiling — the
reload count equals `min expiries MAX_RELOADS`, each reload came with
exactly one increment, and the persisted counter equals the reload count —
it never activates anything, and once it has given up the reload count is
`MAX_RELOADS` and the ledger never changes again under any further
events. -/
theorem quiet_run_reload_once_per_expiry (snap : Snapshot) (attachOk : Bool)
    (es es2 : List Ev) (hsnap : quietSnap snap = true)
    (hes : es.all quietEv = true) :
    (run (startSession snap attachOk) es).reloadsDone =
      min (run (startSession snap attachOk) es).expiries MAX_RELOADS ∧
    (run (startSession snap attachOk) es).incrementsDone =
      (run (startSession snap attachOk) es).reloadsDone ∧
    (run (startSession snap attachOk) es).store =
      canonStore (run (startSession snap attachOk) es).reloadsDone ∧
    (run (startSession snap attachOk) es).clicks = 0 ∧
    ((run (startSession snap attachOk) es).gaveUp = true →
      (run (startSession snap attachOk) es).reloadsDone = MAX_RELOADS ∧
      (run (run (startSession snap attachOk) es) es2).store =
        (run (startSession snap attachOk) es).store) := by
  obtain ⟨h1, h2, h3, h4, h5, h6, h7, h8, h9⟩ :=
    invC1_run es (startSession snap attachOk) (invC1_start snap attachOk hsnap) hes
  refine ⟨?_, h2, by rw [h1, h2], h6, ?_⟩
  · by_cases hg : (run (startSession snap attachOk) es).gaveUp = true
    · obtain ⟨ha, hb, -, -⟩ := h9 hg
      rw [ha, hb]
      simp only [MAX_RELOADS]
      omega
    · rw [Bool.not_eq_true] at hg
      rw [h8 hg]
      have hle : (run (startSession snap attachOk) es).reloadsDone ≤ MAX_RELOADS := by
        rw [← h2]; exact h3
      omega
  · intro hg
    obtain ⟨-, hb, -, -⟩ := h9 hg
    refine ⟨hb, ?_⟩
    apply run_store_frozen
    rw [h1, h2, hb]
    decide

/-- A quiet run driving one full reload cycle. -/
def esQuiet : List Ev :=
  List.replicate 14 (Ev.tick snapEmpty true) ++ [Ev.pageLoad snapEmpty true]

theorem quiet_run_reload_once_per_expiry_witness :
    (run (startSession snapEmpty true) esQuiet).reloadsDone =
      min (run (startSession snapEmpty true) esQuiet).expiries MAX_RELOADS ∧
    (run (startSession snapEmpty true) esQuiet).incrementsDone =
      (run (startSession snapEmpty true) esQuiet).reloadsDone ∧
    (run (startSession snapEmpty true) esQuiet).store =
      canonStore (run (startSession snapEmpty true) esQuiet).reloadsDone ∧
    (run (startSession snapEmpty true) esQuiet).clicks = 0 ∧
    ((run (startSession snapEmpty true) esQuiet).gaveUp = true →
      (run (startSession snapEmpty true) esQuiet).reloadsDone = MAX_RELOADS ∧
      (run (run (startSession snapEmpty true) esQuiet)
          [Ev.tick snapEmpty true]).store =
        (run (startSession snapEmpty true) esQuiet).store) :=
  quiet_run_reload_once_per_expiry snapEmpty true esQuiet
    [Ev.tick snapEmpty true] (by decide) (by decide)

/-! ## C5 — the watchdog -/

/-- The busy session after its watch window expired: backoff scheduled,
one watchdog pending. -/
def sB14 : S :=
  run (startSession snapBusy true) (List.replicate 14 (Ev.tick snapBusy true))

/-- C5 as stated is false on the code: when the watchdog of the first
invocation fires with the latch unset, it only disconnects that
invocation's (already disconnected) observer and clears its (already
cleared) interval — the scheduled busy-backoff re-entry survives it, the
re-entry re-activates scanning after the deadline, and the re-entry starts
a second watchdog, so the watchdog neither runs exactly once per machine,
nor cancels the backoff work, nor forces a terminal stop. -/
theorem watchdog_counterexample :
    sB14.backoffPending = true ∧ sB14.wdPending = [1] ∧ sB14.wdStarted = 1 ∧
    (step sB14 (Ev.wdFire 1)).backoffPending = true ∧
    (step sB14 (Ev.wdFire 1)).wdPending = [] ∧
    (step (step sB14 (Ev.wdFire 1)) (Ev.backoffGo snapBusy true)).timerActive =
      true ∧
    (step (step sB14 (Ev.wdFire 1)) (Ev.backoffGo snapBusy true)).wdStarted =
      2 := by
  decide

/-- C5 amended: each `startAutoDl` invocation starts its own watchdog at
entry (the entry appends one pending watchdog and bumps the start count),
and a watchdog firing on its own unresolved invocation clears that
invocation's observer and poll timer — but it leaves a scheduled
busy-backoff re-entry, the persisted ledger and any pending navigation
untouched, so work created by backoff re-entries survives it. -/
theorem watchdog_per_invocation (s : S) (g : Nat) (snap : Snapshot)
    (attachOk : Bool) (hmem : g ∈ s.wdPending) (hg : g = s.gen)
    (hres : s.resolved = false)
    (hfind : findDownloadControl snap.elements = none) :
    (step s (Ev.wdFire g)).backoffPending = s.backoffPending ∧
    (step s (Ev.wdFire g)).store = s.store ∧
    (step s (Ev.wdFire g)).navigating = s.navigating ∧
    (step s (Ev.wdFire g)).timerActive = false ∧
    (step s (Ev.wdFire g)).obsActive = false ∧
    (enterInstance snap attachOk s).wdStarted = s.wdStarted + 1 ∧
    (enterInstance snap attachOk s).wdPending = s.wdPending ++ [s.gen + 1] := by
  subst hg
  refine ⟨?_, ?_, ?_, ?_, ?_, ?_, ?_⟩ <;>
    simp [step, enterInstance, hmem, hres, hfind]

theorem watchdog_per_invocation_witness :
    (step sB14 (Ev.wdFire 1)).backoffPending = sB14.backoffPending ∧
    (step sB14 (Ev.wdFire 1)).store = sB14.store ∧
    (step sB14 (Ev.wdFire 1)).navigating = sB14.navigating ∧
    (step sB14 (Ev.wdFire 1)).timerActive = false ∧
    (step sB14 (Ev.wdFire 1)).obsActive = false ∧
    (enterInstance snapBusy true sB14).wdStarted = sB14.wdStarted + 1 ∧
    (enterInstance snapBusy true sB14).wdPending = sB14.wdPending ++ [sB14.gen + 1] :=
  watchdog_per_invocation sB14 1 snapBusy true (by decide) (by decide)
    (by decide) (by decide)

end Wormhole
